import Mathlib

/-!
Verification development for the NetVault network-monitoring core.

Shallow embedding of:
* `connectors/base.py` — the protocol-neutral record types;
* `connectors/ssh_connector/parsers/cisco_parser.py` — `parse_show_ip_arp`;
* `connectors/ssh_connector/ssh_connector.py` — `_detect_device_type` and the
  per-capability vendor dispatch;
* `connectors/rest_api/rest_connector.py` — `connect` and the `_request`
  retry wrapper;
* `core/engine/device_manager.py` — `poll_device`, `refresh_device_data`,
  `_update_device_status`, and the `poll_all` semaphore handling;
* `core/engine/audit_engine.py` — `_check_duplicate_ips` and the
  "Duplicate IP Detection" check emission of `run_network_audit`.
-/

namespace NetVault

/-! ## Data model (connectors/base.py dataclasses) -/

/-- `InterfaceInfo` dataclass of `connectors/base.py`. -/
structure InterfaceInfo where
  name : String
  status : String
  speed : Option Nat := none
  mac : Option String := none
  ip : Option String := none
  rx_bytes : Nat := 0
  tx_bytes : Nat := 0
  errors : Nat := 0
deriving Repr, DecidableEq

/-- `ArpEntry` dataclass of `connectors/base.py`. -/
structure ArpEntry where
  ip : String
  mac : String
  interface : String
  type : String
deriving Repr, DecidableEq

/-- `MacEntry` dataclass of `connectors/base.py`. -/
structure MacEntry where
  mac : String
  port : String
  vlan : Nat
  type : String
deriving Repr, DecidableEq

/-- `RouteEntry` dataclass of `connectors/base.py`. -/
structure RouteEntry where
  destination : String
  gateway : String
  interface : String
  metric : Nat
  protocol : String
deriving Repr, DecidableEq

/-- System-info maps (`Dict[str, Any]` restricted to the string fields the
code produces) are modelled as association lists. -/
abbrev SysInfo := List (String × String)

/-! ## String helpers

Substring containment, modelling Python's `in` operator on `str`. -/

/-- Does `p` occur at the very start of `l`? -/
def startsW : List Char → List Char → Bool
  | _, [] => true
  | [], _ :: _ => false
  | c :: cs, p :: ps => c = p && startsW cs ps

/-- Does `p` occur somewhere inside `l`? -/
def hasSub : List Char → List Char → Bool
  | [], p => p.isEmpty
  | c :: cs, p => startsW (c :: cs) p || hasSub cs p

/-- Python `pat in hay` for strings. -/
def containsSub (hay pat : String) : Bool :=
  hasSub hay.toList pat.toList

/-! ## Cisco parser (`connectors/ssh_connector/parsers/cisco_parser.py`)

`parse_show_ip_arp` applies
`re.search(r"\s*Internet\s+(\S+)\s+(\S+)\s+(\S+)\s+ARPA\s+(\S+)", line, re.IGNORECASE)`
to every non-blank line.  The pattern alternates literals, `\s+` runs and
`(\S+)` groups; because `\s` and `\S` are disjoint character classes, the
greedy match is the only possible match, so a deterministic greedy matcher
has exactly the regex's semantics here (the leading `\s*` is subsumed by
`search` trying every start position). -/

/-- Python `\s` on the ASCII whitespace the device output can contain. -/
def isPySpace (c : Char) : Bool :=
  c = ' ' || c = '\t' || c = '\n' || c = '\r' || c = '\x0b' || c = '\x0c'

/-- One element of the regular expression: a case-insensitive literal,
a `\s+` run, or a `(\S+)` capture group. -/
inductive RElem where
  | lit (s : String)
  | ws
  | grp
deriving Repr

/-- Consume a case-insensitive literal (the pattern is compiled with
`re.IGNORECASE`). -/
def litMatch : List Char → List Char → Option (List Char)
  | cs, [] => some cs
  | [], _ :: _ => none
  | c :: cs, p :: ps => if c.toLower = p.toLower then litMatch cs ps else none

/-- Match a pattern element list at the start of the input, returning the
captured groups. -/
def matchElems : List RElem → List Char → Option (List String)
  | [], _ => some []
  | .lit s :: rest, cs =>
    match litMatch cs s.toList with
    | some cs' => matchElems rest cs'
    | none => none
  | .ws :: rest, cs =>
    let sp := cs.takeWhile isPySpace
    if sp.isEmpty then none else matchElems rest (cs.dropWhile isPySpace)
  | .grp :: rest, cs =>
    let tok := cs.takeWhile (fun c => !isPySpace c)
    if tok.isEmpty then none
    else (matchElems rest (cs.dropWhile (fun c => !isPySpace c))).map
      (fun gs => String.mk tok :: gs)

/-- `re.search`: try the pattern at every start position, leftmost first. -/
def searchElems (pat : List RElem) : List Char → Option (List String)
  | [] => matchElems pat []
  | c :: cs =>
    match matchElems pat (c :: cs) with
    | some gs => some gs
    | none => searchElems pat cs

/-- The `show ip arp` pattern
`Internet\s+(\S+)\s+(\S+)\s+(\S+)\s+ARPA\s+(\S+)`. -/
def arpPattern : List RElem :=
  [.lit "Internet", .ws, .grp, .ws, .grp, .ws, .grp, .ws, .lit "ARPA", .ws, .grp]

/-- Python `str.upper()` on the ASCII text the parsers handle. -/
def upperStr (s : String) : String :=
  String.mk (s.toList.map Char.toUpper)

/-- `str.splitlines()` on the newline-separated CLI output. -/
def splitLinesChars : List Char → List (List Char)
  | [] => [[]]
  | '\n' :: rest => [] :: splitLinesChars rest
  | c :: rest =>
    match splitLinesChars rest with
    | [] => [[c]]
    | l :: ls => (c :: l) :: ls

/-- `mac.replace(".", "")` followed by
`":".join(mac[i:i+2] for i in range(0, 12, 2))`: strip the dots and rejoin
the characters at indices 0,2,…,10 in colon-separated pairs (Python slices
clamp, so short inputs give short or empty pieces). -/
def ciscoMacNorm (mac : String) : String :=
  let cs := mac.toList.filter (fun c => c ≠ '.')
  String.mk (List.intercalate [':'] ([0, 2, 4, 6, 8, 10].map (fun i => (cs.drop i).take 2)))

/-- The per-line body of `parse_show_ip_arp`: skip blank lines
(`if not line.strip(): continue`), run the regex search, and build the
`ArpEntry` (`age == "-"` means static; the normalized MAC is upper-cased). -/
def parseArpLine (line : List Char) : Option ArpEntry :=
  if line.all isPySpace then none
  else
    match searchElems arpPattern line with
    | some [ip, age, mac, intf] =>
      some { ip := ip
             mac := upperStr (ciscoMacNorm mac)
             interface := intf
             type := if age = "-" then "static" else "dynamic" }
    | _ => none

/-- `parse_show_ip_arp` of `cisco_parser.py`: split into lines and collect
the entries of every matching line. -/
def parse_show_ip_arp (output : String) : List ArpEntry :=
  (splitLinesChars output.toList).filterMap parseArpLine

/-! ## SSH connector (`connectors/ssh_connector/ssh_connector.py`)

A probe command either returns its output or raises; raising is modelled
with `Except Unit`. -/

/-- `_detect_device_type`, as a function of the output of the probe command
`?` and of the fallback probe `show version`.  Any raise inside the `try`
block (from either probe) is caught by the bare `except` and yields
`"unknown"`; signature checks use Python's `in` operator. -/
def detectDeviceType (probeHelp probeShowVersion : Except Unit String) : String :=
  match probeHelp with
  | .error _ => "unknown"
  | .ok out =>
    if containsSub out "RouterOS" || containsSub out "MikroTik" then "mikrotik"
    else if containsSub out "Cisco" || containsSub out "exec" then "cisco"
    else
      match probeShowVersion with
      | .error _ => "unknown"
      | .ok ver => if containsSub ver "Cisco" then "cisco" else "unknown"

/-- `SSHConnector.get_system_info`: dispatch on the detected device type.
The two vendor parsers are abstracted as the parse results they would
return (`mikrotikResult`, `ciscoResult`); the `else` branch returns the
map `{"error": "Unsupported device type"}`. -/
def sshGetSystemInfo (deviceType : String) (mikrotikResult ciscoResult : SysInfo) : SysInfo :=
  if deviceType = "mikrotik" then mikrotikResult
  else if deviceType = "cisco" then ciscoResult
  else [("error", "Unsupported device type")]

/-- `SSHConnector.get_interfaces`: vendor dispatch; any other device type
returns `[]`. -/
def sshGetInterfaces (deviceType : String)
    (mikrotikResult ciscoResult : List InterfaceInfo) : List InterfaceInfo :=
  if deviceType = "mikrotik" then mikrotikResult
  else if deviceType = "cisco" then ciscoResult
  else []

/-- `SSHConnector.get_arp_table`: vendor dispatch; any other device type
returns `[]`. -/
def sshGetArpTable (deviceType : String)
    (mikrotikResult ciscoResult : List ArpEntry) : List ArpEntry :=
  if deviceType = "mikrotik" then mikrotikResult
  else if deviceType = "cisco" then ciscoResult
  else []

/-- `SSHConnector.get_mac_table`: only the Cisco branch exists; every other
device type (MikroTik included) returns `[]`. -/
def sshGetMacTable (deviceType : String) (ciscoResult : List MacEntry) : List MacEntry :=
  if deviceType = "cisco" then ciscoResult else []

/-- `SSHConnector.get_routes`: vendor dispatch; any other device type
returns `[]`. -/
def sshGetRoutes (deviceType : String)
    (mikrotikResult ciscoResult : List RouteEntry) : List RouteEntry :=
  if deviceType = "mikrotik" then mikrotikResult
  else if deviceType = "cisco" then ciscoResult
  else []

/-! ## REST connector (`connectors/rest_api/rest_connector.py`) -/

/-- The mutable state of a `RESTConnector` that `connect`/`disconnect`
touch: the lazily created `httpx.AsyncClient` (modelled as `Option Unit`)
and the `_is_connected` flag. -/
structure RESTState where
  client : Option Unit
  isConnected : Bool
deriving Repr, DecidableEq

/-- `RESTConnector.connect`: create the HTTP client if absent, set the
connected flag, and return `True` — no request is made to the device. -/
def restConnect (st : RESTState) : Bool × RESTState :=
  let st' := if st.client.isSome then st else { st with client := some () }
  (true, { st' with isConnected := true })

/-- What one `self.client.request(...)` call produces: a response with an
HTTP status code, or a raised `httpx.RequestError`/`asyncio.TimeoutError`. -/
inductive HttpAttempt where
  | resp (code : Nat)
  | transportErr
deriving Repr, DecidableEq

/-- How `RESTConnector._request` terminates. -/
inductive ReqOutcome where
  | success (code : Nat) (attempt : Nat)
  | httpError (code : Nat)
  | transportError
  | maxRetriesExceeded
deriving Repr, DecidableEq

/-- `response.raise_for_status()` raises `httpx.HTTPStatusError` exactly on
4xx/5xx codes. -/
def isErrorStatus (code : Nat) : Bool :=
  400 ≤ code && code < 600

/-- The transient statuses of the retry wrapper:
`e.response.status_code in [429, 503]`. -/
def isTransientStatus (code : Nat) : Bool :=
  code = 429 || code = 503

/-- The hard-coded backoff base of `wait_time = (attempt + 1) * 2`. -/
def baseDelay : Nat := 2

/-- The `for attempt in range(self.max_retries)` loop of
`RESTConnector._request`.  `responses` gives the result of the request on
each attempt; the second component accumulates the `asyncio.sleep` delays.
`attempt < self.max_retries - 1` is rendered as `attempt + 1 < maxRetries`
(equivalent on the in-loop range, where `attempt < maxRetries`). -/
def restRequestLoop (maxRetries : Nat) (responses : Nat → HttpAttempt)
    (attempt : Nat) (waits : List Nat) : ReqOutcome × List Nat :=
  if attempt < maxRetries then
    match responses attempt with
    | .resp code =>
      if isErrorStatus code then
        if isTransientStatus code && attempt + 1 < maxRetries then
          restRequestLoop maxRetries responses (attempt + 1)
            (waits ++ [(attempt + 1) * baseDelay])
        else (.httpError code, waits)
      else (.success code attempt, waits)
    | .transportErr =>
      if attempt + 1 < maxRetries then
        restRequestLoop maxRetries responses (attempt + 1)
          (waits ++ [(attempt + 1) * baseDelay])
      else (.transportError, waits)
  else (.maxRetriesExceeded, waits)
termination_by maxRetries - attempt

/-- `RESTConnector._request`, starting the loop at attempt 0. -/
def restRequest (maxRetries : Nat) (responses : Nat → HttpAttempt) : ReqOutcome × List Nat :=
  restRequestLoop maxRetries responses 0 []

/-! ## Device manager (`core/engine/device_manager.py`)

`poll_device`/`refresh_device_data` interact with a connector through
`connect`, `get_system_info`, `get_interfaces`, `get_arp_table`,
`get_mac_table`, `get_routes`.  Each call either returns its value or
raises, so a connector's behaviour during one poll is a record of
`Except Unit` results.  The semaphore only sequences polls (see the
scheduler model below); the body of a single poll is sequential. -/

/-- The results the connector calls made by one poll produce.  `connectR`
is the result of `connect()`; the others are the retrieval calls. -/
structure ConnBehavior where
  connectR : Except Unit Bool
  systemInfoR : Except Unit SysInfo
  interfacesR : Except Unit (List InterfaceInfo)
  arpTableR : Except Unit (List ArpEntry)
  macTableR : Except Unit (List MacEntry)
  routesR : Except Unit (List RouteEntry)

/-- One `_cache` entry.  A light poll stores `system_info`, `interfaces`
and `last_poll`; a full refresh additionally stores the three tables and
`last_refresh` instead of `last_poll`.  Absent keys are `none`. -/
structure PollEntry where
  system_info : SysInfo
  interfaces : List InterfaceInfo
  arp_table : Option (List ArpEntry) := none
  mac_table : Option (List MacEntry) := none
  routes : Option (List RouteEntry) := none
  last_poll : Option Nat := none
  last_refresh : Option Nat := none
deriving Repr, DecidableEq

/-- Set a key in an association list, appending when absent. -/
def assocSet {α : Type} [DecidableEq α] {β : Type} :
    List (α × β) → α → β → List (α × β)
  | [], k, v => [(k, v)]
  | (k', v') :: rest, k, v =>
    if k' = k then (k', v) :: rest else (k', v') :: assocSet rest k v

/-- The device-manager state the polling claims are about: the `_cache`
map, the device store (the `status`/`last_seen` patch held by the DB for
each device), and the log of `crud.update_device` write-through calls. -/
structure DMState where
  cache : List (Nat × PollEntry)
  store : List (Nat × (String × Nat))
  writes : List (Nat × String × Nat)
deriving Repr, DecidableEq

/-- `_update_device_status`: patch `{status, last_seen}` in the store and
record the `update_device` call. -/
def updateDeviceStatus (st : DMState) (deviceId : Nat) (status : String)
    (now : Nat) : DMState :=
  { st with
    store := assocSet st.store deviceId (status, now)
    writes := st.writes ++ [(deviceId, status, now)] }

/-- How one `poll_device` run terminated. -/
inductive PollOutcome where
  | unknownDevice
  | noConnector
  | connectRaised
  | connectFailed
  | collectRaised
  | polledWarning
  | polledOnline
deriving Repr, DecidableEq

/-- The cache entry a successful light poll publishes. -/
def mkLightEntry (si : SysInfo) (ifs : List InterfaceInfo) (now : Nat) : PollEntry :=
  { system_info := si, interfaces := ifs, last_poll := some now }

/-- `DeviceManager.poll_device`.  `deviceKnown` is whether the device id is
in `_devices`; `conn` is `none` when `get_connector` returned `None`,
otherwise the behaviour of the connector's calls.  Control flow follows
the source: unknown device returns without any write; no connector writes
`offline`; `connect()` returning `False` writes `offline`; any raise in
the `try` block writes `offline` and leaves the cache alone; otherwise the
cache entry is replaced and the status is `warning` on zero interfaces,
`online` otherwise. -/
def pollDevice (deviceKnown : Bool) (conn : Option ConnBehavior)
    (deviceId : Nat) (now : Nat) (st : DMState) : DMState × PollOutcome :=
  if !deviceKnown then (st, .unknownDevice)
  else
    match conn with
    | none => (updateDeviceStatus st deviceId "offline" now, .noConnector)
    | some b =>
      match b.connectR with
      | .error _ => (updateDeviceStatus st deviceId "offline" now, .connectRaised)
      | .ok false => (updateDeviceStatus st deviceId "offline" now, .connectFailed)
      | .ok true =>
        match b.systemInfoR with
        | .error _ => (updateDeviceStatus st deviceId "offline" now, .collectRaised)
        | .ok si =>
          match b.interfacesR with
          | .error _ => (updateDeviceStatus st deviceId "offline" now, .collectRaised)
          | .ok ifs =>
            let st' := { st with cache := assocSet st.cache deviceId (mkLightEntry si ifs now) }
            let status := if ifs.isEmpty then "warning" else "online"
            (updateDeviceStatus st' deviceId status now,
             if ifs.isEmpty then .polledWarning else .polledOnline)

/-- How one `refresh_device_data` run terminated. -/
inductive RefreshOutcome where
  | noConnector
  | connectRaised
  | connectFailed
  | collectRaised
  | refreshed
deriving Repr, DecidableEq

/-- The cache entry a successful full refresh publishes. -/
def mkFullEntry (si : SysInfo) (ifs : List InterfaceInfo) (arps : List ArpEntry)
    (macs : List MacEntry) (rts : List RouteEntry) (now : Nat) : PollEntry :=
  { system_info := si, interfaces := ifs, arp_table := some arps,
    mac_table := some macs, routes := some rts, last_refresh := some now }

/-- `DeviceManager.refresh_device_data`.  Control flow follows the source:
no connector returns with no write; `connect()` returning `False` returns
with no write; any raise is caught, logged, and returns with no write; on
full success the cache entry is replaced and the status written is
`online` unconditionally. -/
def refreshDeviceData (conn : Option ConnBehavior) (deviceId : Nat)
    (now : Nat) (st : DMState) : DMState × RefreshOutcome :=
  match conn with
  | none => (st, .noConnector)
  | some b =>
    match b.connectR with
    | .error _ => (st, .connectRaised)
    | .ok false => (st, .connectFailed)
    | .ok true =>
      match b.systemInfoR, b.interfacesR, b.arpTableR, b.macTableR, b.routesR with
      | .ok si, .ok ifs, .ok arps, .ok macs, .ok rts =>
        let st' := { st with
          cache := assocSet st.cache deviceId (mkFullEntry si ifs arps macs rts now) }
        (updateDeviceStatus st' deviceId "online" now, .refreshed)
      | _, _, _, _, _ => (st, .collectRaised)

/-! ## Audit engine (`core/engine/audit_engine.py`)

`_check_duplicate_ips` receives `all_data : device id → cache entry` and
reads each entry's `arp_table` (`data.get("arp_table", [])`, so entries
without the key contribute nothing).  It is modelled over the list of
`(device id, arp_table)` pairs in iteration order.  The `ip_map` dict maps
each IP to a `set` of MACs; a Python `set` is modelled as a duplicate-free
list filled by membership-checked insertion. -/

/-- Add one MAC to the `ip_map` entry of `ip` (`ip_map[ip].add(mac)`,
creating the set first when the key is new). -/
def insertMac : List (String × List String) → String → String → List (String × List String)
  | [], ip, mac => [(ip, [mac])]
  | (k, macs) :: rest, ip, mac =>
    if k = ip then (k, if mac ∈ macs then macs else macs ++ [mac]) :: rest
    else (k, macs) :: insertMac rest ip mac

/-- The truthiness test `if ip and mac:` on the two extracted strings. -/
def validArp (e : ArpEntry) : Bool :=
  e.ip ≠ "" && e.mac ≠ ""

/-- The loop body of `_check_duplicate_ips` for one ARP entry. -/
def arpStep (m : List (String × List String)) (e : ArpEntry) : List (String × List String) :=
  if validArp e then insertMac m e.ip e.mac else m

/-- The inner loop over one device's ARP table. -/
def addArpEntries (m : List (String × List String)) (entries : List ArpEntry) :
    List (String × List String) :=
  entries.foldl arpStep m

/-- The `ip_map` built by the two nested loops of `_check_duplicate_ips`. -/
def buildIpMap (allData : List (Nat × List ArpEntry)) : List (String × List String) :=
  allData.foldl (fun m d => addArpEntries m d.2) []

/-- `AuditEngine._check_duplicate_ips`: the entries of `ip_map` whose MAC
set has more than one element. -/
def checkDuplicateIps (allData : List (Nat × List ArpEntry)) : List (String × List String) :=
  (buildIpMap allData).filter (fun p => 1 < p.2.length)

/-- One network-audit check as `run_network_audit` emits it:
an `AuditCheck(name, status, message, details)` whose details for the
duplicate-IP analysis are the IP and its MAC list. -/
structure NetCheck where
  name : String
  status : String
  message : String
  detailIp : String
  detailMacs : List String
deriving Repr, DecidableEq

/-- The duplicate-IP section of `run_network_audit`: one fail check per
entry of `_check_duplicate_ips`. -/
def dupIpChecks (allData : List (Nat × List ArpEntry)) : List NetCheck :=
  (checkDuplicateIps allData).map (fun p =>
    { name := "Duplicate IP Detection"
      status := "fail"
      message := "IP " ++ p.1 ++ " is associated with multiple MAC addresses: " ++
        String.intercalate ", " p.2
      detailIp := p.1
      detailMacs := p.2 })

/-- The fleet-wide ARP entry list in the iteration order of the two nested
loops of `_check_duplicate_ips`. -/
def flatArp (allData : List (Nat × List ArpEntry)) : List ArpEntry :=
  allData.foldr (fun d acc => d.2 ++ acc) []

/-- MACs observed for `ip` among the entries of `pre` that pass the
truthiness test, with repetitions. -/
def obsMacs (pre : List ArpEntry) (ip : String) : List String :=
  pre.filterMap (fun e => if validArp e ∧ e.ip = ip then some e.mac else none)

/-- All MACs observed fleet-wide for `ip` (over the entries that pass the
truthiness test), in iteration order and with repetitions — the reference
against which the grouped map is verified. -/
def observedMacs (allData : List (Nat × List ArpEntry)) (ip : String) : List String :=
  obsMacs (flatArp allData) ip

/-! ## Poll concurrency (`DeviceManager.poll_all` and the shared semaphore)

`poll_device`/`refresh_device_data` hold `self._semaphore` around the
connect-to-disconnect span.  `poll_all(max_concurrent)` starts with

    if max_concurrent != self._semaphore._value:
        self._semaphore = asyncio.Semaphore(max_concurrent)

where `_value` is the semaphore's *live* counter (initial capacity minus
current holders).  The model is a transition system: each poll task is
ready, in flight while it holds some semaphore instance (generation), or
done; the scheduler interleaves task steps and `poll_all` entries. -/

/-- The phase of one poll task. -/
inductive TaskPhase where
  | ready
  | inFlight (gen : Nat)
  | done
deriving Repr, DecidableEq

/-- The current semaphore object: its initial capacity and its identity
(generation), plus the task list. -/
structure SchedState where
  capacity : Nat
  gen : Nat
  tasks : List TaskPhase
deriving Repr, DecidableEq

/-- How many tasks currently hold semaphore generation `g`. -/
def holdersOf (s : SchedState) (g : Nat) : Nat :=
  s.tasks.countP (fun t => t = .inFlight g)

/-- How many `connect()` calls are in flight, over all semaphore
generations. -/
def inFlightCount (s : SchedState) : Nat :=
  s.tasks.countP (fun t => match t with | .inFlight _ => true | _ => false)

/-- The live `_value` of the current semaphore: initial capacity minus
current holders. -/
def semValue (s : SchedState) : Nat :=
  s.capacity - holdersOf s s.gen

/-- Scheduler actions: a ready task acquires the current semaphore and
enters its connect section; an in-flight task disconnects and releases; a
`poll_all(max_concurrent)` call runs its semaphore-replacement check. -/
inductive SchedAction where
  | start (i : Nat)
  | finish (i : Nat)
  | pollAllEnter (maxConcurrent : Nat)
deriving Repr, DecidableEq

/-- One scheduler step; actions that are not enabled leave the state
unchanged. -/
def schedStep (s : SchedState) (a : SchedAction) : SchedState :=
  match a with
  | .start i =>
    match s.tasks.get? i with
    | some .ready =>
      if holdersOf s s.gen < s.capacity then
        { s with tasks := s.tasks.set i (.inFlight s.gen) }
      else s
    | _ => s
  | .finish i =>
    match s.tasks.get? i with
    | some (.inFlight _) => { s with tasks := s.tasks.set i .done }
    | _ => s
  | .pollAllEnter maxConcurrent =>
    if maxConcurrent ≠ semValue s then
      { s with capacity := maxConcurrent, gen := s.gen + 1 }
    else s

/-- Run a sequence of scheduler actions. -/
def schedRun (s : SchedState) (acts : List SchedAction) : SchedState :=
  acts.foldl schedStep s

/-- The initial state: a fresh semaphore of capacity `c` and `n` ready
poll tasks. -/
def schedInit (n c : Nat) : SchedState :=
  { capacity := c, gen := 0, tasks := List.replicate n .ready }

/-! ## Proof support for the duplicate-IP analysis -/

/-- Association-list lookup for the `ip_map` representation. -/
def lookupIp : List (String × List String) → String → Option (List String)
  | [], _ => none
  | (k, v) :: rest, ip => if k = ip then some v else lookupIp rest ip

/-- The effect of `ip_map[ip].add(mac)` on the looked-up MAC set. -/
def addMacOpt (mac : String) : Option (List String) → List String
  | none => [mac]
  | some ms => if mac ∈ ms then ms else ms ++ [mac]

/-- The invariant tying the grouped `ip_map` to the list `pre` of ARP
entries processed so far: keys are unique; an absent key means no valid
entry for that IP was seen; a present key holds a duplicate-free, nonempty
list with exactly the MACs observed for that IP. -/
def IpMapInv (pre : List ArpEntry) (m : List (String × List String)) : Prop :=
  (m.map Prod.fst).Nodup ∧
  (∀ ip, lookupIp m ip = none → obsMacs pre ip = []) ∧
  (∀ ip ms, lookupIp m ip = some ms →
    ms.Nodup ∧ ms ≠ [] ∧ ∀ x, x ∈ ms ↔ x ∈ obsMacs pre ip)

/-! ## Concrete test vectors -/

/-- Two devices whose ARP tables both hold `10.0.0.5`, with different
MACs. -/
def allDataDup : List (Nat × List ArpEntry) :=
  [(1, [{ ip := "10.0.0.5", mac := "AA:AA:AA:AA:AA:AA", interface := "eth0", type := "dynamic" }]),
   (2, [{ ip := "10.0.0.5", mac := "BB:BB:BB:BB:BB:BB", interface := "eth0", type := "dynamic" }])]

/-- Two devices whose ARP tables both hold `10.0.0.5`, with the same MAC. -/
def allDataSame : List (Nat × List ArpEntry) :=
  [(1, [{ ip := "10.0.0.5", mac := "AA:AA:AA:AA:AA:AA", interface := "eth0", type := "dynamic" }]),
   (2, [{ ip := "10.0.0.5", mac := "AA:AA:AA:AA:AA:AA", interface := "eth1", type := "dynamic" }])]

/-- A connector whose `connect()` succeeds and whose retrievals return one
interface and empty tables. -/
def bOnline : ConnBehavior :=
  { connectR := .ok true
    systemInfoR := .ok [("model", "x")]
    interfacesR := .ok [{ name := "eth0", status := "up" }]
    arpTableR := .ok []
    macTableR := .ok []
    routesR := .ok [] }

/-- A connector whose `connect()` succeeds but whose retrievals all come
back empty. -/
def bEmpty : ConnBehavior :=
  { connectR := .ok true
    systemInfoR := .ok []
    interfacesR := .ok []
    arpTableR := .ok []
    macTableR := .ok []
    routesR := .ok [] }

/-- A connector whose `connect()` returns `False`. -/
def bConnFalse : ConnBehavior :=
  { connectR := .ok false
    systemInfoR := .ok []
    interfacesR := .ok []
    arpTableR := .ok []
    macTableR := .ok []
    routesR := .ok [] }

/-- A device-manager state whose store remembers device 1 as `online`
from an earlier poll at time 0. -/
def st0 : DMState :=
  { cache := []
    store := [(1, ("online", 0))]
    writes := [] }

/-- A server answering 429 twice, then 200. -/
def respTwice429 (n : Nat) : HttpAttempt :=
  if n < 2 then .resp 429 else .resp 200

/-- A server answering 429 on every attempt. -/
def respAll429 (_ : Nat) : HttpAttempt :=
  .resp 429

/-- A server answering 503 twice, then 200. -/
def respTwice503 (n : Nat) : HttpAttempt :=
  if n < 2 then .resp 503 else .resp 200

/-- A server answering 503 on every attempt. -/
def respAll503 (_ : Nat) : HttpAttempt :=
  .resp 503

/-- A transport error on every attempt. -/
def respAllTransport (_ : Nat) : HttpAttempt :=
  .transportErr

/-- A server answering 404 on every attempt. -/
def respAll404 (_ : Nat) : HttpAttempt :=
  .resp 404

/-- A transport error on the first attempt, then 200. -/
def respTransportThen200 (n : Nat) : HttpAttempt :=
  if n = 0 then .transportErr else .resp 200

/-! ## Theorems -/

/-- C7: parsing the Cisco ARP line
`Internet  192.168.1.1  -  0011.2233.4455  ARPA  FastEthernet0/1` yields
exactly one `ArpEntry` with ip `192.168.1.1`, the dotted MAC renormalized
to `00:11:22:33:44:55`, type `static` (age `-`), and interface
`FastEthernet0/1`. -/
theorem cisco_arp_static_line :
    parse_show_ip_arp "Internet  192.168.1.1  -  0011.2233.4455  ARPA  FastEthernet0/1" =
      [{ ip := "192.168.1.1", mac := "00:11:22:33:44:55",
         interface := "FastEthernet0/1", type := "static" }] := by
  decide

/-- C9: `RESTConnector.connect` returns `True` in every state without
contacting the device (it only creates the local HTTP client and sets the
connected flag), so a poll of a device whose `connect()` returns `True`
can never take the connect-failure (or connect-raise) branch of
`poll_device`. -/
theorem rest_connect_never_offline (rst : RESTState) :
    (restConnect rst).1 = true ∧
    (restConnect rst).2.isConnected = true ∧
    (∀ (b : ConnBehavior) (deviceId now : Nat) (st : DMState),
      b.connectR = .ok (restConnect rst).1 →
      (pollDevice true (some b) deviceId now st).2 ≠ .connectFailed ∧
      (pollDevice true (some b) deviceId now st).2 ≠ .connectRaised) := by
  refine ⟨rfl, rfl, ?_⟩
  intro b deviceId now st hconn
  simp only [restConnect] at hconn
  cases hsi : b.systemInfoR with
  | error e =>
    simp [pollDevice, hconn, hsi]
  | ok si =>
    cases hifs : b.interfacesR with
    | error e => simp [pollDevice, hconn, hsi, hifs]
    | ok ifs =>
      cases h : ifs.isEmpty <;>
        simp [pollDevice, hconn, hsi, hifs, h]

/-- Witness for C9 at a concrete connector behaviour. -/
theorem rest_connect_never_offline_witness :
    (pollDevice true (some bOnline) 1 5 st0).2 ≠ .connectFailed ∧
    (pollDevice true (some bOnline) 1 5 st0).2 ≠ .connectRaised :=
  (rest_connect_never_offline ⟨none, false⟩).2.2 bOnline 1 5 st0 rfl

/-- C5 counterexample: with device type `unknown`, `get_system_info` does
not return an empty collection — it returns the one-entry map
`{"error": "Unsupported device type"}`. -/
theorem ssh_unknown_system_info_nonempty :
    sshGetSystemInfo "unknown" [] [] = [("error", "Unsupported device type")] ∧
    sshGetSystemInfo "unknown" [] [] ≠ ([] : SysInfo) := by
  decide

/-- C5 (amended): in auto-detection mode a probe response containing
`RouterOS` or `MikroTik` resolves to `mikrotik`; otherwise one containing
`Cisco` or `exec` resolves to `cisco`; otherwise a `show version` fallback
response containing `Cisco` resolves to `cisco`; when neither signature
matches (including after the fallback probe, and when either probe
raises), the type resolves to `unknown`.  With type `unknown` the four
table capabilities return empty lists, while `get_system_info` returns
the non-empty map `{"error": "Unsupported device type"}`. -/
theorem ssh_detection_amended :
    (∀ (out : String) (probe2 : Except Unit String),
      (containsSub out "RouterOS" || containsSub out "MikroTik") = true →
      detectDeviceType (.ok out) probe2 = "mikrotik") ∧
    (∀ (out : String) (probe2 : Except Unit String),
      (containsSub out "RouterOS" || containsSub out "MikroTik") = false →
      (containsSub out "Cisco" || containsSub out "exec") = true →
      detectDeviceType (.ok out) probe2 = "cisco") ∧
    (∀ (out ver : String),
      (containsSub out "RouterOS" || containsSub out "MikroTik") = false →
      (containsSub out "Cisco" || containsSub out "exec") = false →
      containsSub ver "Cisco" = true →
      detectDeviceType (.ok out) (.ok ver) = "cisco") ∧
    (∀ (out ver : String),
      (containsSub out "RouterOS" || containsSub out "MikroTik") = false →
      (containsSub out "Cisco" || containsSub out "exec") = false →
      containsSub ver "Cisco" = false →
      detectDeviceType (.ok out) (.ok ver) = "unknown") ∧
    (∀ (e : Unit) (probe2 : Except Unit String),
      detectDeviceType (.error e) probe2 = "unknown") ∧
    (∀ (out : String) (e : Unit),
      (containsSub out "RouterOS" || containsSub out "MikroTik") = false →
      (containsSub out "Cisco" || containsSub out "exec") = false →
      detectDeviceType (.ok out) (.error e) = "unknown") ∧
    (∀ (mi : List InterfaceInfo) (ci : List InterfaceInfo),
      sshGetInterfaces "unknown" mi ci = []) ∧
    (∀ (ma : List ArpEntry) (ca : List ArpEntry),
      sshGetArpTable "unknown" ma ca = []) ∧
    (∀ (cm : List MacEntry), sshGetMacTable "unknown" cm = []) ∧
    (∀ (mr : List RouteEntry) (cr : List RouteEntry),
      sshGetRoutes "unknown" mr cr = []) ∧
    (∀ (ms cs : SysInfo),
      sshGetSystemInfo "unknown" ms cs = [("error", "Unsupported device type")]) := by
  refine ⟨?_, ?_, ?_, ?_, ?_, ?_, ?_, ?_, ?_, ?_, ?_⟩
  · intro out probe2 h
    simp [detectDeviceType, h]
  · intro out probe2 h1 h2
    simp [detectDeviceType, h1, h2]
  · intro out ver h1 h2 h3
    simp [detectDeviceType, h1, h2, h3]
  · intro out ver h1 h2 h3
    simp [detectDeviceType, h1, h2, h3]
  · intro e probe2
    simp [detectDeviceType]
  · intro out e h1 h2
    simp [detectDeviceType, h1, h2]
  · intro mi ci; simp [sshGetInterfaces]
  · intro ma ca; simp [sshGetArpTable]
  · intro cm; simp [sshGetMacTable]
  · intro mr cr; simp [sshGetRoutes]
  · intro ms cs; simp [sshGetSystemInfo]

/-- Witness for C5 at concrete probe outputs: the two vendor signatures,
the fallback-probe `Cisco` signature, no signature anywhere, and a raise
of either probe. -/
theorem ssh_detection_amended_witness :
    detectDeviceType (.ok "MikroTik RouterOS 6.49") (.ok "") = "mikrotik" ∧
    detectDeviceType (.ok "Cisco IOS Software") (.ok "") = "cisco" ∧
    detectDeviceType (.ok "% ambiguous command")
      (.ok "Cisco IOS Software, Version 12.2") = "cisco" ∧
    detectDeviceType (.ok "sh: command not found") (.ok "sh: command not found") = "unknown" ∧
    detectDeviceType (.error ()) (.ok "Cisco IOS Software") = "unknown" ∧
    detectDeviceType (.ok "login banner") (.error ()) = "unknown" :=
  ⟨ssh_detection_amended.1 "MikroTik RouterOS 6.49" (.ok "") (by decide),
   (ssh_detection_amended.2.1) "Cisco IOS Software" (.ok "") (by decide) (by decide),
   (ssh_detection_amended.2.2.1) "% ambiguous command" "Cisco IOS Software, Version 12.2"
     (by decide) (by decide) (by decide),
   (ssh_detection_amended.2.2.2.1) "sh: command not found" "sh: command not found"
     (by decide) (by decide) (by decide),
   (ssh_detection_amended.2.2.2.2.1) () (.ok "Cisco IOS Software"),
   (ssh_detection_amended.2.2.2.2.2.1) "login banner" () (by decide) (by decide)⟩

/-- C10: when `refresh_device_data` completes its collection phase without
an exception it writes status `online`, even when `get_interfaces` (and
every other capability call) returned an empty collection. -/
theorem refresh_writes_online (b : ConnBehavior) (deviceId now : Nat) (st : DMState)
    (si : SysInfo) (ifs : List InterfaceInfo) (arps : List ArpEntry)
    (macs : List MacEntry) (rts : List RouteEntry)
    (hc : b.connectR = .ok true) (hsi : b.systemInfoR = .ok si)
    (hifs : b.interfacesR = .ok ifs) (ha : b.arpTableR = .ok arps)
    (hm : b.macTableR = .ok macs) (hr : b.routesR = .ok rts) :
    (refreshDeviceData (some b) deviceId now st).1.writes =
      st.writes ++ [(deviceId, "online", now)] ∧
    (refreshDeviceData (some b) deviceId now st).2 = .refreshed := by
  simp [refreshDeviceData, hc, hsi, hifs, ha, hm, hr, updateDeviceStatus]

/-- Witness for C10: a connector returning zero interfaces (and empty
tables) still yields the `online` write. -/
theorem refresh_writes_online_witness :
    (refreshDeviceData (some bEmpty) 1 5 st0).1.writes = st0.writes ++ [(1, "online", 5)] ∧
    (refreshDeviceData (some bEmpty) 1 5 st0).2 = .refreshed :=
  refresh_writes_online bEmpty 1 5 st0 [] [] [] [] [] rfl rfl rfl rfl rfl rfl

/-- C1: the three-way status mapping of `poll_device`: no obtainable
connector or a failing `connect()` (returning `False` or raising) writes
`offline`; a successful connect with zero interfaces writes `warning`; a
successful connect with a non-empty interface list writes `online`. -/
theorem poll_device_status_mapping (b : ConnBehavior) (deviceId now : Nat) (st : DMState) :
    ((pollDevice true none deviceId now st).1.writes =
      st.writes ++ [(deviceId, "offline", now)]) ∧
    (b.connectR = .ok false →
      (pollDevice true (some b) deviceId now st).1.writes =
        st.writes ++ [(deviceId, "offline", now)]) ∧
    (b.connectR = .error () →
      (pollDevice true (some b) deviceId now st).1.writes =
        st.writes ++ [(deviceId, "offline", now)]) ∧
    (∀ si : SysInfo, b.connectR = .ok true → b.systemInfoR = .ok si →
      b.interfacesR = .ok [] →
      (pollDevice true (some b) deviceId now st).1.writes =
        st.writes ++ [(deviceId, "warning", now)]) ∧
    (∀ (si : SysInfo) (ifs : List InterfaceInfo),
      b.connectR = .ok true → b.systemInfoR = .ok si →
      b.interfacesR = .ok ifs → ifs ≠ [] →
      (pollDevice true (some b) deviceId now st).1.writes =
        st.writes ++ [(deviceId, "online", now)]) := by
  refine ⟨?_, ?_, ?_, ?_, ?_⟩
  · simp [pollDevice, updateDeviceStatus]
  · intro h
    simp [pollDevice, h, updateDeviceStatus]
  · intro h
    simp [pollDevice, h, updateDeviceStatus]
  · intro si hc hsi hifs
    simp [pollDevice, hc, hsi, hifs, updateDeviceStatus]
  · intro si ifs hc hsi hifs hne
    simp [pollDevice, hc, hsi, hifs, updateDeviceStatus, List.isEmpty_iff, hne]

/-- Witness for C1 at concrete behaviours: connect failure, zero
interfaces, and one interface. -/
theorem poll_device_status_mapping_witness :
    (pollDevice true (some bConnFalse) 1 5 st0).1.writes = st0.writes ++ [(1, "offline", 5)] ∧
    (pollDevice true (some bEmpty) 1 5 st0).1.writes = st0.writes ++ [(1, "warning", 5)] ∧
    (pollDevice true (some bOnline) 1 5 st0).1.writes = st0.writes ++ [(1, "online", 5)] :=
  ⟨(poll_device_status_mapping bConnFalse 1 5 st0).2.1 rfl,
   (poll_device_status_mapping bEmpty 1 5 st0).2.2.2.1 [] rfl rfl rfl,
   (poll_device_status_mapping bOnline 1 5 st0).2.2.2.2
     [("model", "x")] [{ name := "eth0", status := "up" }] rfl rfl rfl (by decide)⟩

/-- C4 counterexample: a `refresh_device_data` attempt whose `connect()`
returns `False` performs no store write at all — the store still carries
the `online` status of an older poll, so the cached status does not
reflect the most recent poll attempt's outcome. -/
theorem refresh_failed_connect_no_write :
    refreshDeviceData (some bConnFalse) 1 5 st0 = (st0, .connectFailed) ∧
    (refreshDeviceData (some bConnFalse) 1 5 st0).1.store = [(1, ("online", 0))] ∧
    (refreshDeviceData (some bConnFalse) 1 5 st0).1.writes = [] := by
  decide

/-- C4 (amended): `poll_device` writes status and `last_seen` through to
the store after every poll attempt on a known device, success or failure;
`refresh_device_data`, however, writes only when the whole collection
succeeds (status `online`) — on every failure path (no connector, a
failing or raising `connect()`, a raising collection call) it leaves the
store, the write log and the cache unchanged. -/
theorem poll_write_through_amended (conn : Option ConnBehavior) (b : ConnBehavior)
    (deviceId now : Nat) (st : DMState) :
    (∃ status, (pollDevice true conn deviceId now st).1.writes =
      st.writes ++ [(deviceId, status, now)]) ∧
    ((refreshDeviceData (some b) deviceId now st).2 = .refreshed →
      (refreshDeviceData (some b) deviceId now st).1.writes =
        st.writes ++ [(deviceId, "online", now)]) ∧
    ((refreshDeviceData (some b) deviceId now st).2 ≠ .refreshed →
      (refreshDeviceData (some b) deviceId now st).1 = st) ∧
    (refreshDeviceData none deviceId now st).1 = st := by
  refine ⟨?_, ?_, ?_, ?_⟩
  · match conn with
    | none => exact ⟨"offline", by simp [pollDevice, updateDeviceStatus]⟩
    | some b' =>
      match hc : b'.connectR with
      | .error e => exact ⟨"offline", by simp [pollDevice, hc, updateDeviceStatus]⟩
      | .ok false => exact ⟨"offline", by simp [pollDevice, hc, updateDeviceStatus]⟩
      | .ok true =>
        match hsi : b'.systemInfoR with
        | .error e => exact ⟨"offline", by simp [pollDevice, hc, hsi, updateDeviceStatus]⟩
        | .ok si =>
          match hifs : b'.interfacesR with
          | .error e =>
            exact ⟨"offline", by simp [pollDevice, hc, hsi, hifs, updateDeviceStatus]⟩
          | .ok ifs =>
            cases he : ifs.isEmpty
            · exact ⟨"online", by simp [pollDevice, hc, hsi, hifs, he, updateDeviceStatus]⟩
            · exact ⟨"warning", by simp [pollDevice, hc, hsi, hifs, he, updateDeviceStatus]⟩
  · intro h
    match hc : b.connectR with
    | .error e => simp [refreshDeviceData, hc] at h
    | .ok false => simp [refreshDeviceData, hc] at h
    | .ok true =>
      match hsi : b.systemInfoR, hifs : b.interfacesR, ha : b.arpTableR,
          hm : b.macTableR, hr : b.routesR with
      | .ok si, .ok ifs, .ok arps, .ok macs, .ok rts =>
        simp [refreshDeviceData, hc, hsi, hifs, ha, hm, hr, updateDeviceStatus]
      | .error e, _, _, _, _ => simp [refreshDeviceData, hc, hsi] at h
      | .ok si, .error e, _, _, _ => simp [refreshDeviceData, hc, hsi, hifs] at h
      | .ok si, .ok ifs, .error e, _, _ => simp [refreshDeviceData, hc, hsi, hifs, ha] at h
      | .ok si, .ok ifs, .ok arps, .error e, _ =>
        simp [refreshDeviceData, hc, hsi, hifs, ha, hm] at h
      | .ok si, .ok ifs, .ok arps, .ok macs, .error e =>
        simp [refreshDeviceData, hc, hsi, hifs, ha, hm, hr] at h
  · intro h
    match hc : b.connectR with
    | .error e => simp [refreshDeviceData, hc]
    | .ok false => simp [refreshDeviceData, hc]
    | .ok true =>
      match hsi : b.systemInfoR, hifs : b.interfacesR, ha : b.arpTableR,
          hm : b.macTableR, hr : b.routesR with
      | .ok si, .ok ifs, .ok arps, .ok macs, .ok rts =>
        exact absurd (by simp [refreshDeviceData, hc, hsi, hifs, ha, hm, hr]) h
      | .error e, _, _, _, _ => simp [refreshDeviceData, hc, hsi]
      | .ok si, .error e, _, _, _ => simp [refreshDeviceData, hc, hsi, hifs]
      | .ok si, .ok ifs, .error e, _, _ => simp [refreshDeviceData, hc, hsi, hifs, ha]
      | .ok si, .ok ifs, .ok arps, .error e, _ =>
        simp [refreshDeviceData, hc, hsi, hifs, ha, hm]
      | .ok si, .ok ifs, .ok arps, .ok macs, .error e =>
        simp [refreshDeviceData, hc, hsi, hifs, ha, hm, hr]
  · simp [refreshDeviceData]

/-- Witness for C4 (amended): the always-written poll and the silent
failed refresh at concrete inputs. -/
theorem poll_write_through_amended_witness :
    (∃ status, (pollDevice true (some bOnline) 1 5 st0).1.writes =
      st0.writes ++ [(1, status, 5)]) ∧
    (refreshDeviceData (some bConnFalse) 1 5 st0).1 = st0 :=
  ⟨(poll_write_through_amended (some bOnline) bConnFalse 1 5 st0).1,
   (poll_write_through_amended (some bOnline) bConnFalse 1 5 st0).2.2.1 (by decide)⟩

/-- C6: the poll cache is only ever replaced wholesale.  A poll or refresh
that does not reach its success outcome leaves the cache exactly as it
was; a successful one sets the device's entry to `mkLightEntry`
(respectively `mkFullEntry`), which is built purely from the fresh
connector results — it takes no input from the previous cache, so no
partial merge into an existing entry can occur. -/
theorem poll_cache_wholesale (b : ConnBehavior) (deviceId now : Nat) (st : DMState) :
    ((pollDevice true none deviceId now st).1.cache = st.cache) ∧
    ((pollDevice true (some b) deviceId now st).2 ≠ .polledWarning →
      (pollDevice true (some b) deviceId now st).2 ≠ .polledOnline →
      (pollDevice true (some b) deviceId now st).1.cache = st.cache) ∧
    (∀ (si : SysInfo) (ifs : List InterfaceInfo),
      b.connectR = .ok true → b.systemInfoR = .ok si → b.interfacesR = .ok ifs →
      (pollDevice true (some b) deviceId now st).1.cache =
        assocSet st.cache deviceId (mkLightEntry si ifs now)) ∧
    ((refreshDeviceData none deviceId now st).1.cache = st.cache) ∧
    ((refreshDeviceData (some b) deviceId now st).2 ≠ .refreshed →
      (refreshDeviceData (some b) deviceId now st).1.cache = st.cache) ∧
    (∀ (si : SysInfo) (ifs : List InterfaceInfo) (arps : List ArpEntry)
      (macs : List MacEntry) (rts : List RouteEntry),
      b.connectR = .ok true → b.systemInfoR = .ok si → b.interfacesR = .ok ifs →
      b.arpTableR = .ok arps → b.macTableR = .ok macs → b.routesR = .ok rts →
      (refreshDeviceData (some b) deviceId now st).1.cache =
        assocSet st.cache deviceId (mkFullEntry si ifs arps macs rts now)) := by
  refine ⟨by simp [pollDevice, updateDeviceStatus], ?_, ?_,
    by simp [refreshDeviceData], ?_, ?_⟩
  · intro hw ho
    match hc : b.connectR with
    | .error e => simp [pollDevice, hc, updateDeviceStatus]
    | .ok false => simp [pollDevice, hc, updateDeviceStatus]
    | .ok true =>
      match hsi : b.systemInfoR with
      | .error e => simp [pollDevice, hc, hsi, updateDeviceStatus]
      | .ok si =>
        match hifs : b.interfacesR with
        | .error e => simp [pollDevice, hc, hsi, hifs, updateDeviceStatus]
        | .ok ifs =>
          cases he : ifs.isEmpty
          · exact absurd (by simp [pollDevice, hc, hsi, hifs, he]) ho
          · exact absurd (by simp [pollDevice, hc, hsi, hifs, he]) hw
  · intro si ifs hc hsi hifs
    cases he : ifs.isEmpty <;>
      simp [pollDevice, hc, hsi, hifs, he, updateDeviceStatus]
  · intro h
    match hc : b.connectR with
    | .error e => simp [refreshDeviceData, hc]
    | .ok false => simp [refreshDeviceData, hc]
    | .ok true =>
      match hsi : b.systemInfoR, hifs : b.interfacesR, ha : b.arpTableR,
          hm : b.macTableR, hr : b.routesR with
      | .ok si, .ok ifs, .ok arps, .ok macs, .ok rts =>
        exact absurd (by simp [refreshDeviceData, hc, hsi, hifs, ha, hm, hr]) h
      | .error e, _, _, _, _ => simp [refreshDeviceData, hc, hsi]
      | .ok si, .error e, _, _, _ => simp [refreshDeviceData, hc, hsi, hifs]
      | .ok si, .ok ifs, .error e, _, _ => simp [refreshDeviceData, hc, hsi, hifs, ha]
      | .ok si, .ok ifs, .ok arps, .error e, _ =>
        simp [refreshDeviceData, hc, hsi, hifs, ha, hm]
      | .ok si, .ok ifs, .ok arps, .ok macs, .error e =>
        simp [refreshDeviceData, hc, hsi, hifs, ha, hm, hr]
  · intro si ifs arps macs rts hc hsi hifs ha hm hr
    simp [refreshDeviceData, hc, hsi, hifs, ha, hm, hr, updateDeviceStatus]

/-- Witness for C6: a failing poll keeps the cache, a successful refresh
replaces the entry wholesale. -/
theorem poll_cache_wholesale_witness :
    (pollDevice true (some bConnFalse) 1 5 st0).1.cache = st0.cache ∧
    (refreshDeviceData (some bEmpty) 1 5 st0).1.cache =
      assocSet st0.cache 1 (mkFullEntry [] [] [] [] [] 5) :=
  ⟨(poll_cache_wholesale bConnFalse 1 5 st0).2.1 (by decide) (by decide),
   (poll_cache_wholesale bEmpty 1 5 st0).2.2.2.2.2 [] [] [] [] []
     rfl rfl rfl rfl rfl rfl⟩

/-- C8 failing trace: with `max_concurrent = 1`, one poll task acquires
the semaphore and, while it is still connected, `poll_all(1)` runs its
check `if max_concurrent != self._semaphore._value` — the live `_value` is
0, so the semaphore is replaced by a fresh `Semaphore(1)` — and a second
poll task acquires the new instance: two `connect()` calls are in flight
at once, exceeding the bound.  Without the `poll_all` entry the second
task stays blocked and the bound holds. -/
theorem semaphore_replacement_breaks_bound :
    inFlightCount (schedRun (schedInit 2 1)
      [.start 0, .pollAllEnter 1, .start 1]) = 2 ∧
    1 < inFlightCount (schedRun (schedInit 2 1)
      [.start 0, .pollAllEnter 1, .start 1]) ∧
    inFlightCount (schedRun (schedInit 2 1) [.start 0, .start 1]) = 1 := by
  decide

/-! ### Lemmas about the `_request` retry loop -/

theorem isErrorStatus_of_transient (c : Nat) (h : isTransientStatus c = true) :
    isErrorStatus c = true := by
  rw [isTransientStatus] at h
  simp at h
  rcases h with h | h <;> subst h <;> decide

theorem backoff_range'_one (n : Nat) :
    (List.range' 1 n).map (· * baseDelay) =
      (List.range n).map (fun i => (i + 1) * baseDelay) := by
  rw [List.range'_eq_map_range, List.map_map]
  refine List.map_congr_left (fun a _ => ?_)
  simp [Function.comp, Nat.add_comm]

theorem restRequestLoop_all_transient (resp : Nat → HttpAttempt) (c : Nat)
    (htr : isTransientStatus c = true) :
    ∀ (fuel mR attempt : Nat) (waits : List Nat),
      mR - attempt ≤ fuel → attempt < mR →
      (∀ i, attempt ≤ i → i < mR → resp i = .resp c) →
      restRequestLoop mR resp attempt waits =
        (.httpError c,
          waits ++ (List.range' (attempt + 1) (mR - 1 - attempt)).map (· * baseDelay)) := by
  have herr := isErrorStatus_of_transient c htr
  intro fuel
  induction fuel with
  | zero =>
    intro mR attempt waits hle hlt _
    omega
  | succ n ih =>
    intro mR attempt waits hle hlt hresp
    by_cases hlast : attempt + 1 < mR
    · have hrec := ih mR (attempt + 1) (waits ++ [(attempt + 1) * baseDelay]) (by omega)
        hlast (fun i h1 h2 => hresp i (by omega) h2)
      have hn : mR - 1 - attempt = (mR - 1 - (attempt + 1)) + 1 := by omega
      rw [restRequestLoop, if_pos hlt, hresp attempt le_rfl hlt, hn, List.range'_succ]
      simp [herr, htr, hlast, hrec]
    · have hn : mR - 1 - attempt = 0 := by omega
      rw [restRequestLoop, if_pos hlt, hresp attempt le_rfl hlt, hn]
      simp [herr, htr, hlast]

theorem restRequestLoop_all_transport (resp : Nat → HttpAttempt) :
    ∀ (fuel mR attempt : Nat) (waits : List Nat),
      mR - attempt ≤ fuel → attempt < mR →
      (∀ i, attempt ≤ i → i < mR → resp i = .transportErr) →
      restRequestLoop mR resp attempt waits =
        (.transportError,
          waits ++ (List.range' (attempt + 1) (mR - 1 - attempt)).map (· * baseDelay)) := by
  intro fuel
  induction fuel with
  | zero =>
    intro mR attempt waits hle hlt _
    omega
  | succ n ih =>
    intro mR attempt waits hle hlt hresp
    by_cases hlast : attempt + 1 < mR
    · have hrec := ih mR (attempt + 1) (waits ++ [(attempt + 1) * baseDelay]) (by omega)
        hlast (fun i h1 h2 => hresp i (by omega) h2)
      have hn : mR - 1 - attempt = (mR - 1 - (attempt + 1)) + 1 := by omega
      rw [restRequestLoop, if_pos hlt, hresp attempt le_rfl hlt, hn, List.range'_succ]
      simp [hlast, hrec]
    · have hn : mR - 1 - attempt = 0 := by omega
      rw [restRequestLoop, if_pos hlt, hresp attempt le_rfl hlt, hn]
      simp [hlast]

/-- C2: the retry wrapper of `RESTConnector._request`.  For either
transient status (429 or 503): answering it twice then 200 (default
`max_retries = 3`) succeeds on attempt 2 after exactly 2 retries with
backoff delays `1*2` and `2*2`; answering it on every attempt, for any
configured `max_retries > 0`, surfaces it as a failure after exactly
`max_retries` attempts with backoff `(attempt+1)*base_delay` after each
non-final attempt and no further retry; transport errors are retried
with the same schedule and bound; and a non-transient HTTP error status
propagates immediately, with no retry and no backoff sleep, for any
configured `max_retries`. -/
theorem rest_retry_spec (resp : Nat → HttpAttempt) :
    (∀ c, isTransientStatus c = true →
      resp 0 = .resp c → resp 1 = .resp c → resp 2 = .resp 200 →
      restRequest 3 resp = (.success 200 2, [1 * baseDelay, 2 * baseDelay])) ∧
    (∀ c mR, isTransientStatus c = true → 0 < mR →
      (∀ i, i < mR → resp i = .resp c) →
      restRequest mR resp =
        (.httpError c, (List.range (mR - 1)).map (fun i => (i + 1) * baseDelay))) ∧
    (∀ mR, 0 < mR → (∀ i, i < mR → resp i = .transportErr) →
      restRequest mR resp =
        (.transportError, (List.range (mR - 1)).map (fun i => (i + 1) * baseDelay))) ∧
    (resp 0 = .transportErr → resp 1 = .resp 200 →
      restRequest 3 resp = (.success 200 1, [1 * baseDelay])) ∧
    (∀ code mR, isErrorStatus code = true → isTransientStatus code = false → 0 < mR →
      resp 0 = .resp code →
      restRequest mR resp = (.httpError code, [])) := by
  refine ⟨?_, ?_, ?_, ?_, ?_⟩
  · intro c htr h0 h1 h2
    have herr := isErrorStatus_of_transient c htr
    rw [restRequest, restRequestLoop]
    simp only [h0]
    norm_num [herr, htr]
    rw [restRequestLoop]
    simp only [h1]
    norm_num [herr, htr]
    rw [restRequestLoop]
    simp only [h2]
    norm_num [isErrorStatus]
  · intro c mR htr hmR hresp
    have h := restRequestLoop_all_transient resp c htr mR mR 0 [] (by omega) hmR
      (fun i _ h2 => hresp i h2)
    rw [restRequest, h]
    simp [backoff_range'_one]
  · intro mR hmR hresp
    have h := restRequestLoop_all_transport resp mR mR 0 [] (by omega) hmR
      (fun i _ h2 => hresp i h2)
    rw [restRequest, h]
    simp [backoff_range'_one]
  · intro h0 h1
    rw [restRequest, restRequestLoop]
    simp only [h0]
    norm_num
    rw [restRequestLoop]
    simp only [h1]
    norm_num [isErrorStatus]
  · intro code mR herr htrans hmR h0
    rw [restRequest, restRequestLoop, if_pos hmR]
    simp only [h0]
    simp [herr, htrans]

/-- Witness for C2 at concrete servers: 429 and 503 twice then 200,
all-503 with `max_retries = 5`, all-429 and all-transport with the
default 3, transport error then 200, and a steady 404. -/
theorem rest_retry_spec_witness :
    restRequest 3 respTwice429 = (.success 200 2, [2, 4]) ∧
    restRequest 3 respTwice503 = (.success 200 2, [2, 4]) ∧
    restRequest 5 respAll503 = (.httpError 503, [2, 4, 6, 8]) ∧
    restRequest 3 respAll429 = (.httpError 429, [2, 4]) ∧
    restRequest 3 respAllTransport = (.transportError, [2, 4]) ∧
    restRequest 3 respTransportThen200 = (.success 200 1, [2]) ∧
    restRequest 3 respAll404 = (.httpError 404, []) :=
  ⟨((rest_retry_spec respTwice429).1 429 (by decide) rfl rfl rfl).trans (by decide),
   ((rest_retry_spec respTwice503).1 503 (by decide) rfl rfl rfl).trans (by decide),
   ((rest_retry_spec respAll503).2.1 503 5 (by decide) (by decide)
     (fun i _ => rfl)).trans (by decide),
   ((rest_retry_spec respAll429).2.1 429 3 (by decide) (by decide)
     (fun i _ => rfl)).trans (by decide),
   ((rest_retry_spec respAllTransport).2.2.1 3 (by decide)
     (fun i _ => rfl)).trans (by decide),
   ((rest_retry_spec respTransportThen200).2.2.2.1 rfl rfl).trans (by decide),
   (rest_retry_spec respAll404).2.2.2.2 404 3 (by decide) (by decide) (by decide) rfl⟩

/-! ### Lemmas about the `ip_map` grouping -/

theorem lookupIp_insertMac (m : List (String × List String)) (ip mac k : String) :
    lookupIp (insertMac m ip mac) k =
      if k = ip then some (addMacOpt mac (lookupIp m ip)) else lookupIp m k := by
  induction m with
  | nil =>
    by_cases h : k = ip
    · subst h; simp [insertMac, lookupIp, addMacOpt]
    · simp [insertMac, lookupIp, addMacOpt, h, Ne.symm h]
  | cons hd tl ih =>
    obtain ⟨k', v'⟩ := hd
    by_cases h1 : k' = ip
    · subst h1
      by_cases h2 : k' = k
      · subst h2; simp [insertMac, lookupIp, addMacOpt]
      · simp [insertMac, lookupIp, addMacOpt, h2, Ne.symm h2]
    · by_cases h2 : k' = k
      · subst h2
        simp [insertMac, lookupIp, h1, Ne.symm h1]
      · simp [insertMac, lookupIp, h1, h2, ih]

theorem keys_insertMac_some (m : List (String × List String)) (ip mac : String)
    (ms : List String) (h : lookupIp m ip = some ms) :
    (insertMac m ip mac).map Prod.fst = m.map Prod.fst := by
  induction m with
  | nil => simp [lookupIp] at h
  | cons hd tl ih =>
    obtain ⟨k', v'⟩ := hd
    by_cases h1 : k' = ip
    · simp [insertMac, h1]
    · rw [lookupIp, if_neg h1] at h
      simp [insertMac, h1, ih h]

theorem keys_insertMac_none (m : List (String × List String)) (ip mac : String)
    (h : lookupIp m ip = none) :
    (insertMac m ip mac).map Prod.fst = m.map Prod.fst ++ [ip] := by
  induction m with
  | nil => simp [insertMac]
  | cons hd tl ih =>
    obtain ⟨k', v'⟩ := hd
    by_cases h1 : k' = ip
    · rw [lookupIp, if_pos h1] at h
      exact absurd h (by simp)
    · rw [lookupIp, if_neg h1] at h
      simp [insertMac, h1, ih h]

theorem lookupIp_eq_none_iff (m : List (String × List String)) (k : String) :
    lookupIp m k = none ↔ k ∉ m.map Prod.fst := by
  induction m with
  | nil => simp [lookupIp]
  | cons hd tl ih =>
    obtain ⟨k', v'⟩ := hd
    by_cases h1 : k' = k
    · subst h1; simp [lookupIp]
    · simp [lookupIp, h1, ih, Ne.symm h1, not_or]

theorem mem_iff_lookupIp (m : List (String × List String))
    (hnd : (m.map Prod.fst).Nodup) (k : String) (ms : List String) :
    (k, ms) ∈ m ↔ lookupIp m k = some ms := by
  induction m with
  | nil => simp [lookupIp]
  | cons hd tl ih =>
    obtain ⟨k', v'⟩ := hd
    rw [List.map_cons, List.nodup_cons] at hnd
    by_cases h1 : k' = k
    · subst h1
      rw [lookupIp, if_pos rfl]
      have hnotin : ∀ xs : List String, (k', xs) ∉ tl := by
        intro xs hmem
        exact hnd.1 (List.mem_map.2 ⟨(k', xs), hmem, rfl⟩)
      simp [List.mem_cons, hnotin]
      exact eq_comm
    · rw [lookupIp, if_neg h1, ← ih hnd.2]
      have hne : (k, ms) ≠ (k', v') := by
        intro hc
        exact h1 (congrArg Prod.fst hc).symm
      simp [List.mem_cons, hne]

theorem keys_nodup_insertMac (m : List (String × List String)) (ip mac : String)
    (h : (m.map Prod.fst).Nodup) :
    ((insertMac m ip mac).map Prod.fst).Nodup := by
  cases hl : lookupIp m ip with
  | some ms => rw [keys_insertMac_some m ip mac ms hl]; exact h
  | none =>
    rw [keys_insertMac_none m ip mac hl]
    have : ip ∉ m.map Prod.fst := (lookupIp_eq_none_iff m ip).1 hl
    simp [List.nodup_append, h, this]

theorem obsMacs_append (pre1 pre2 : List ArpEntry) (ip : String) :
    obsMacs (pre1 ++ pre2) ip = obsMacs pre1 ip ++ obsMacs pre2 ip := by
  simp [obsMacs]

theorem obsMacs_single (e : ArpEntry) (ip : String) :
    obsMacs [e] ip = if validArp e ∧ e.ip = ip then [e.mac] else [] := by
  by_cases h : validArp e ∧ e.ip = ip <;> simp [obsMacs, h]

theorem ipMapInv_step (pre : List ArpEntry) (e : ArpEntry)
    (m : List (String × List String)) (h : IpMapInv pre m) :
    IpMapInv (pre ++ [e]) (arpStep m e) := by
  obtain ⟨hnd, hnone, hsome⟩ := h
  by_cases hv : validArp e
  · refine ⟨?_, ?_, ?_⟩
    · rw [arpStep, if_pos hv]
      exact keys_nodup_insertMac m e.ip e.mac hnd
    · intro ip hl
      rw [arpStep, if_pos hv, lookupIp_insertMac] at hl
      by_cases hip : ip = e.ip
      · rw [if_pos hip] at hl
        exact absurd hl (by simp)
      · rw [if_neg hip] at hl
        rw [obsMacs_append, hnone ip hl, obsMacs_single]
        simp [Ne.symm hip]
    · intro ip ms hl
      rw [arpStep, if_pos hv, lookupIp_insertMac] at hl
      by_cases hip : ip = e.ip
      · subst hip
        rw [if_pos rfl, Option.some_inj] at hl
        rw [obsMacs_append, obsMacs_single, if_pos ⟨hv, rfl⟩]
        cases hprev : lookupIp m e.ip with
        | none =>
          rw [hprev] at hl
          subst hl
          refine ⟨by simp [addMacOpt], by simp [addMacOpt], ?_⟩
          intro x
          simp [addMacOpt, hnone e.ip hprev]
        | some ms0 =>
          rw [hprev] at hl
          obtain ⟨hnd0, hne0, hmem0⟩ := hsome e.ip ms0 hprev
          subst hl
          by_cases hmac : e.mac ∈ ms0
          · refine ⟨by simpa [addMacOpt, hmac] using hnd0,
              by simpa [addMacOpt, hmac] using hne0, ?_⟩
            intro x
            simp only [addMacOpt, if_pos hmac]
            rw [hmem0 x]
            constructor
            · intro hx; exact List.mem_append_left _ hx
            · intro hx
              rcases List.mem_append.1 hx with hx | hx
              · exact hx
              · simp at hx
                subst hx
                exact (hmem0 e.mac).1 hmac
          · refine ⟨?_, by simp [addMacOpt, hmac], ?_⟩
            · simp only [addMacOpt, if_neg hmac]
              simp [List.nodup_append, hnd0, hmac]
            · intro x
              simp only [addMacOpt, if_neg hmac]
              simp only [List.mem_append, List.mem_singleton, hmem0 x]
      · rw [if_neg hip] at hl
        obtain ⟨hnd0, hne0, hmem0⟩ := hsome ip ms hl
        refine ⟨hnd0, hne0, ?_⟩
        intro x
        rw [obsMacs_append, obsMacs_single]
        simp [hmem0 x, Ne.symm hip]
  · rw [arpStep, if_neg hv]
    refine ⟨hnd, ?_, ?_⟩
    · intro ip hl
      rw [obsMacs_append, hnone ip hl, obsMacs_single]
      simp [hv]
    · intro ip ms hl
      obtain ⟨hnd0, hne0, hmem0⟩ := hsome ip ms hl
      refine ⟨hnd0, hne0, ?_⟩
      intro x
      rw [obsMacs_append, obsMacs_single]
      simp [hmem0 x, hv]

theorem ipMapInv_foldl (l : List ArpEntry) :
    ∀ (pre : List ArpEntry) (m : List (String × List String)),
      IpMapInv pre m → IpMapInv (pre ++ l) (l.foldl arpStep m) := by
  induction l with
  | nil => intro pre m h; simpa using h
  | cons e tl ih =>
    intro pre m h
    have h2 := ih (pre ++ [e]) (arpStep m e) (ipMapInv_step pre e m h)
    simpa [List.append_assoc] using h2

theorem buildIpMap_flat (allData : List (Nat × List ArpEntry)) :
    buildIpMap allData = (flatArp allData).foldl arpStep [] := by
  suffices h : ∀ (l : List (Nat × List ArpEntry)) (m : List (String × List String)),
      l.foldl (fun m d => addArpEntries m d.2) m = (flatArp l).foldl arpStep m by
    exact h allData []
  intro l
  induction l with
  | nil => intro m; simp [flatArp]
  | cons d tl ih =>
    intro m
    show tl.foldl (fun m d => addArpEntries m d.2) (addArpEntries m d.2) = _
    rw [ih]
    show _ = (d.2 ++ flatArp tl).foldl arpStep m
    rw [List.foldl_append]
    rfl

theorem ipMapInv_build (allData : List (Nat × List ArpEntry)) :
    IpMapInv (flatArp allData) (buildIpMap allData) := by
  rw [buildIpMap_flat]
  have hbase : IpMapInv [] [] := by
    refine ⟨List.nodup_nil, fun ip _ => rfl, fun ip ms h => ?_⟩
    simp [lookupIp] at h
  simpa using ipMapInv_foldl (flatArp allData) [] [] hbase

theorem nodup_length_eq_dedup (ms L : List String) (h1 : ms.Nodup)
    (h2 : ∀ x, x ∈ ms ↔ x ∈ L) : ms.length = L.dedup.length := by
  have hperm : ms.Perm L.dedup := by
    rw [List.perm_ext_iff_of_nodup h1 L.nodup_dedup]
    intro a
    rw [h2 a, List.mem_dedup]
  exact hperm.length_eq

/-- C3: the duplicate-IP analysis of the network audit.  Every emitted
check is a fail-level "Duplicate IP Detection" check; the emitted IPs are
pairwise distinct (exactly one check per IP); an IP is emitted exactly
when more than one distinct MAC is observed for it fleet-wide (so an IP
whose ARP entries all carry the same MAC produces no finding); and the
MAC list of a check holds exactly the MACs observed for its IP. -/
theorem duplicate_ip_checks_correct (allData : List (Nat × List ArpEntry)) :
    (∀ c ∈ dupIpChecks allData,
      c.name = "Duplicate IP Detection" ∧ c.status = "fail") ∧
    ((dupIpChecks allData).map NetCheck.detailIp).Nodup ∧
    (∀ ip, ip ∈ (dupIpChecks allData).map NetCheck.detailIp ↔
      2 ≤ (observedMacs allData ip).dedup.length) ∧
    (∀ c ∈ dupIpChecks allData,
      ∀ mac, mac ∈ c.detailMacs ↔ mac ∈ observedMacs allData c.detailIp) := by
  obtain ⟨hnd, hnone, hsome⟩ := ipMapInv_build allData
  have hkeys : (dupIpChecks allData).map NetCheck.detailIp =
      (checkDuplicateIps allData).map Prod.fst := by
    rw [dupIpChecks, List.map_map]
    rfl
  refine ⟨?_, ?_, ?_, ?_⟩
  · intro c hc
    rw [dupIpChecks, List.mem_map] at hc
    obtain ⟨p, hp, rfl⟩ := hc
    exact ⟨rfl, rfl⟩
  · rw [hkeys, checkDuplicateIps]
    exact ((List.filter_sublist _).map Prod.fst).nodup hnd
  · intro ip
    rw [hkeys, checkDuplicateIps]
    constructor
    · intro h
      rw [List.mem_map] at h
      obtain ⟨p, hp, rfl⟩ := h
      rw [List.mem_filter] at hp
      obtain ⟨hpm, hplen⟩ := hp
      have hlook : lookupIp (buildIpMap allData) p.1 = some p.2 :=
        (mem_iff_lookupIp _ hnd p.1 p.2).1 (by simpa using hpm)
      obtain ⟨hnd0, _, hmem0⟩ := hsome p.1 p.2 hlook
      have hlen : p.2.length = (obsMacs (flatArp allData) p.1).dedup.length :=
        nodup_length_eq_dedup p.2 _ hnd0 hmem0
      rw [observedMacs, ← hlen]
      simpa using hplen
    · intro h
      cases hlook : lookupIp (buildIpMap allData) ip with
      | none =>
        rw [observedMacs, hnone ip hlook] at h
        simp at h
      | some ms =>
        obtain ⟨hnd0, _, hmem0⟩ := hsome ip ms hlook
        have hlen : ms.length = (obsMacs (flatArp allData) ip).dedup.length :=
          nodup_length_eq_dedup ms _ hnd0 hmem0
        have hmm : (ip, ms) ∈ buildIpMap allData :=
          (mem_iff_lookupIp _ hnd ip ms).2 hlook
        rw [List.mem_map]
        refine ⟨(ip, ms), ?_, rfl⟩
        rw [List.mem_filter]
        refine ⟨hmm, ?_⟩
        rw [observedMacs] at h
        simp only [decide_eq_true_eq]
        omega
  · intro c hc mac
    rw [dupIpChecks, List.mem_map] at hc
    obtain ⟨p, hp, rfl⟩ := hc
    rw [checkDuplicateIps, List.mem_filter] at hp
    have hlook : lookupIp (buildIpMap allData) p.1 = some p.2 :=
      (mem_iff_lookupIp _ hnd p.1 p.2).1 (by simpa using hp.1)
    obtain ⟨_, _, hmem0⟩ := hsome p.1 p.2 hlook
    exact hmem0 mac

/-- Witness for C3: two devices reporting `10.0.0.5` with different MACs
produce a finding for that IP; with identical MACs they produce none. -/
theorem duplicate_ip_checks_correct_witness :
    "10.0.0.5" ∈ (dupIpChecks allDataDup).map NetCheck.detailIp ∧
    "10.0.0.5" ∉ (dupIpChecks allDataSame).map NetCheck.detailIp := by
  constructor
  · exact ((duplicate_ip_checks_correct allDataDup).2.2.1 "10.0.0.5").mpr (by decide)
  · intro h
    have h2 := ((duplicate_ip_checks_correct allDataSame).2.2.1 "10.0.0.5").mp h
    revert h2
    decide

end NetVault
